import Mathlib

/-!
Shallow embedding of the prematch prediction engine (src/app.py and
src/cleaner.py) and verification of the specification claims.

Modelling conventions:
* Python floats are modelled as exact rationals (ℚ).  Python's round(x, 1)
  (banker's rounding, ties to even) is modelled exactly on ℚ.
* The pandas dataframes df_master / df_upcoming are modelled as lists of
  records whose fields reflect the columns produced by load_master /
  load_upcoming: team-name strings, non-negative integer goals, and a
  parsed kickoff timestamp where None models NaT (an unparseable date).
  A timestamp is a (date, time-of-day) pair ordered lexicographically,
  mirroring the datetime column built from the date and time columns.
* np.random.poisson draws are modelled by passing the drawn sample arrays
  to predict_match explicitly (the source always draws two arrays of
  length sims = 1000).
* Python dict lookup on the literal alias/strength tables is modelled by
  List.lookup on the corresponding association list (all keys distinct).
-/

set_option maxRecDepth 10000

/-! ### Python str.strip -/

/-- Python str.strip() whitespace test, restricted to the ASCII whitespace
characters (the team-name data contains no exotic Unicode whitespace). -/
def isPySpace (c : Char) : Bool :=
  c == ' ' || c == '\t' || c == '\n' || c == '\r' || c == '\x0b' || c == '\x0c'

/-- Python str.strip(): remove leading and trailing whitespace. -/
def pyStrip (s : String) : String :=
  String.mk (List.rdropWhile isPySpace (s.data.dropWhile isPySpace))

theorem stripList_head_not (p : Char → Bool) (l : List Char) :
    List.dropWhile p (List.rdropWhile p (List.dropWhile p l)) =
      List.rdropWhile p (List.dropWhile p l) := by
  rcases h : List.rdropWhile p (List.dropWhile p l) with _ | ⟨a, t⟩
  · simp
  · have hpre := List.rdropWhile_prefix p (List.dropWhile p l)
    rw [h] at hpre
    have hne : (a :: t : List Char) ≠ [] := by simp
    have hdw : List.dropWhile p l ≠ [] := by
      intro hnil
      rw [hnil] at hpre
      simp [List.prefix_nil] at hpre
    have hd : (a :: t : List Char).head hne = (List.dropWhile p l).head hdw :=
      List.IsPrefix.head hpre hne
    have hfail : p ((List.dropWhile p l).head hdw) = false :=
      List.head_dropWhile_not p l hdw
    rw [List.dropWhile_cons]
    have hpa : p a = false := by
      have ha : (a :: t : List Char).head hne = a := rfl
      rw [ha] at hd
      rw [hd]; exact hfail
    simp [hpa]

theorem pyStrip_idem (s : String) : pyStrip (pyStrip s) = pyStrip s := by
  show String.mk (List.rdropWhile isPySpace
        ((List.rdropWhile isPySpace (s.data.dropWhile isPySpace)).dropWhile isPySpace))
      = String.mk (List.rdropWhile isPySpace (s.data.dropWhile isPySpace))
  rw [stripList_head_not, List.rdropWhile_idempotent]

/-! ### Team identity resolution (src/app.py lines 37-50 and
src/cleaner.py lines 34-82).

Both files define a function normalize_team(name) that trims the raw
string and then looks it up in a hard-coded alias dictionary, returning
the string unchanged (after the trim) when the lookup misses.  The two
files differ only in the alias table, so each lives in its own namespace.
The common lookup shape is factored out as lookup_or_self, and each
normalize_team is definitionally equal to it (see the _eq lemmas). -/

def lookup_or_self (table : List (String × String)) (name : String) : String :=
  ((table.lookup (pyStrip name)).getD (pyStrip name))

namespace App

/-- src/app.py lines 37-46. -/
def TEAM_ALIASES : List (String × String) := [
  ("Man City", "Manchester City"),
  ("ManCity", "Manchester City"),
  ("Manchester City FC", "Manchester City"),
  ("Man Utd", "Manchester United"),
  ("Man United", "Manchester United"),
  ("Chelsea FC", "Chelsea"),
  ("Liverpool FC", "Liverpool"),
  ("Arsenal FC", "Arsenal")]

/-- src/app.py lines 48-50: name = str(name).strip(); return
TEAM_ALIASES.get(name, name). -/
def normalize_team (name : String) : String :=
  let name := pyStrip name
  (TEAM_ALIASES.lookup name).getD name

theorem app_normalize_team_eq (name : String) :
    normalize_team name = lookup_or_self TEAM_ALIASES name := rfl

end App

namespace Cleaner

/-- src/cleaner.py lines 34-68. -/
def TEAM_ALIASES : List (String × String) := [
  ("Man City", "Manchester City"),
  ("ManCity", "Manchester City"),
  ("Manchester City FC", "Manchester City"),
  ("Man Utd", "Manchester United"),
  ("Man United", "Manchester United"),
  ("Liverpool FC", "Liverpool"),
  ("Chelsea FC", "Chelsea"),
  ("Arsenal FC", "Arsenal"),
  ("Brighton & Hove Albion FC", "Brighton"),
  ("Brighton & Hove Albion", "Brighton"),
  ("Brighton FC", "Brighton"),
  ("Bristol City Fc", "Bristol City"),
  ("Birmingham City Fc", "Birmingham City"),
  ("Leicester City FC", "Leicester City"),
  ("Oxford United FC", "Oxford United"),
  ("Millwall FC", "Millwall"),
  ("Middlesbrough FC", "Middlesbrough"),
  ("Preston North End FC", "Preston North End"),
  ("Coventry City FC", "Coventry City"),
  ("Norwich City FC", "Norwich City"),
  ("Sheffield Wednesday FC", "Sheffield Wednesday"),
  ("Derby County FC", "Derby County"),
  ("West Bromwich Albion FC", "West Bromwich Albion"),
  ("Hull City AFC", "Hull City"),
  ("Swansea City AFC", "Swansea City"),
  ("Portsmouth FC", "Portsmouth"),
  ("Charlton Athletic FC", "Charlton Athletic"),
  ("Standard LiÃ¨ge", "Standard Liege"),
  ("RSC Anderlecht", "Anderlecht")]

/-- src/cleaner.py lines 80-82: name = str(name).strip(); return
TEAM_ALIASES.get(name, name). -/
def normalize_team (name : String) : String :=
  let name := pyStrip name
  (TEAM_ALIASES.lookup name).getD name

theorem cleaner_normalize_team_eq (name : String) :
    normalize_team name = lookup_or_self TEAM_ALIASES name := rfl

end Cleaner

/-! ### Generic facts about the lookup_or_self resolver shape -/

theorem lookup_mem {k v : String} :
    ∀ {T : List (String × String)}, T.lookup k = some v → (k, v) ∈ T := by
  intro T
  induction T with
  | nil => intro h; simp [List.lookup] at h
  | cons p rest ih =>
    intro h
    rcases p with ⟨a, b⟩
    rw [List.lookup_cons] at h
    rcases hk : (k == a) with _ | _
    · rw [hk] at h
      exact List.mem_cons_of_mem _ (ih h)
    · rw [hk] at h
      have ha : k = a := by simpa using hk
      have hb : v = b := by simpa using h.symm
      subst ha; subst hb
      exact List.mem_cons_self _ _

/-- If every canonical value of the table is strip-fixed and is not itself a
key of the table, then the resolver is idempotent. -/
theorem lookup_or_self_idem (T : List (String × String))
    (hT : ∀ p ∈ T, pyStrip p.2 = p.2 ∧ T.lookup p.2 = none) (s : String) :
    lookup_or_self T (lookup_or_self T s) = lookup_or_self T s := by
  unfold lookup_or_self
  cases h : T.lookup (pyStrip s) with
  | none =>
    simp only [h, Option.getD_none, pyStrip_idem, h]
  | some v =>
    have hv := hT (pyStrip s, v) (lookup_mem h)
    simp only [h, Option.getD_some, hv.1, hv.2, Option.getD_none]

/-! ### Match repository (src/app.py lines 81-99, the master dataframe)

A MatchRow models one row of df_master after load_master has run: column
names stripped, fthg/ftag renamed to home_goals/away_goals and coerced to
non-negative integers (malformed values become 0), the datetime column
parsed from the date and time strings (none models NaT, an unparseable
date), and home/away already passed through App.normalize_team
(lines 98-99; see load_master_names below). -/

structure MatchRow where
  home : String
  away : String
  home_goals : ℕ
  away_goals : ℕ
  datetime : Option (ℤ × ℤ)
  deriving DecidableEq

/-- src/app.py lines 98-99: the name-normalization pass of load_master,
applying normalize_team to the home and away columns of every row.  The
earlier steps of load_master (CSV reading, date parsing, goal coercion)
are pandas glue whose result is reflected in the MatchRow field types. -/
def load_master_names (rows : List MatchRow) : List MatchRow :=
  rows.map (fun r =>
    { r with home := App.normalize_team r.home, away := App.normalize_team r.away })

/-! ### Recency ordering (src/app.py lines 137-140)

sort_values("datetime", ascending=False) sorts rows by the datetime key,
descending, with NaT rows placed last (the pandas default na_position).
With ⊥ for NaT that key order is the WithBot order on lexicographic
(date, time) pairs.  Ties and NaT rows are ordered deterministically; the
source's quicksort fixes one such order and we model it with a (stable)
merge sort — no claim depends on which deterministic tie order is used. -/

def keyD (o : Option (ℤ × ℤ)) : WithBot (ℤ ×ₗ ℤ) :=
  match o with
  | none => ⊥
  | some p => (toLex p : ℤ ×ₗ ℤ)

/-- Comparator for descending datetime order with NaT last. -/
def descLe (a b : MatchRow) : Bool :=
  decide (keyD b.datetime ≤ keyD a.datetime)

/-- One entry of the list built by get_last_n_matches (src/app.py lines
142-156): the source stores the row's date rendering, the two team names,
the score string f"{gf}-{ga}" oriented from the given team's perspective,
and the outcome string.  We keep the parsed date and the numeric gf/ga
pair; the score string is their rendering, and splitting it on "-" (as
avg_goals later does) recovers exactly (gf, ga) since goals are
non-negative. -/
structure FormEntry where
  date : Option (ℤ × ℤ)
  home : String
  away : String
  gf : ℕ
  ga : ℕ
  outcome : String
  deriving DecidableEq

/-- src/app.py lines 142-156: orient goals from the team's perspective and
classify the outcome. -/
def to_form_entry (team : String) (row : MatchRow) : FormEntry :=
  let gf := if row.home = team then row.home_goals else row.away_goals
  let ga := if row.home = team then row.away_goals else row.home_goals
  { date := row.datetime, home := row.home, away := row.away, gf := gf, ga := ga,
    outcome := if gf > ga then "W" else if gf = ga then "D" else "L" }

/-- src/app.py lines 137-157: rows where the team played home or away,
sorted by datetime descending (NaT last), first n of them, rendered as
form entries. -/
def get_last_n_matches (df : List MatchRow) (team : String) (n : ℕ) : List FormEntry :=
  ((((df.filter (fun r => r.home == team || r.away == team)).mergeSort descLe).take n).map
    (to_form_entry team))

/-! ### Scoring helpers of predict_match (src/app.py lines 166-191) -/

/-- src/app.py line 167: score_map = {"W": 3, "D": 1, "L": 0}. -/
def score_map (o : String) : ℚ :=
  if o = "W" then 3 else if o = "D" then 1 else 0

/-- src/app.py line 168. -/
def form_weights : List ℚ := [2.0, 1.8, 1.5, 1.2, 1, 1, 1, 1, 1, 1]

/-- src/app.py lines 166-169: the source truncates the weight list to
len(form) and zips; zip itself truncates to the shorter list, which is the
same thing. -/
def weighted_score (form : List FormEntry) : ℚ :=
  ((form.zip form_weights).map (fun p => score_map p.1.outcome * p.2)).sum

/-- src/app.py lines 174-185.  The loop re-parses the score string
m["score"] = f"{gf}-{ga}"; split("-")[0] is the stored (team-oriented) gf
and split("-")[1] the stored ga, so for rows where the team was NOT the
home side the accumulators receive them swapped a second time. -/
def avg_goals (df : List MatchRow) (team : String) : ℚ × ℚ :=
  let ms := get_last_n_matches df team 10
  let acc := ms.foldl (fun acc m =>
      (acc.1 + (if m.home = team then (m.gf : ℚ) else (m.ga : ℚ)),
       acc.2 + (if m.home = team then (m.ga : ℚ) else (m.gf : ℚ)))) (0, 0)
  let n := ms.length
  (if 0 < n then acc.1 / n else 1.0, if 0 < n then acc.2 / n else 1.0)

/-- src/app.py lines 55-76. -/
def TEAM_STRENGTH : List (String × ℚ) := [
  ("Manchester City", 95),
  ("Chelsea", 88),
  ("Arsenal", 90),
  ("Liverpool", 89),
  ("Man United", 85),
  ("Tottenham", 84),
  ("Newcastle", 83),
  ("Brighton", 80),
  ("Everton", 75),
  ("West Ham", 74),
  ("Aston Villa", 73),
  ("Leicester City", 72),
  ("Southampton", 70),
  ("Bournemouth", 68),
  ("Nottingham Forest", 67),
  ("Crystal Palace", 66),
  ("Sheffield United", 78),
  ("Bristol City", 72),
  ("Millwall", 70),
  ("Coventry City", 69)]

/-- TEAM_STRENGTH.get(team, 70) as used on lines 190-191 and 207. -/
def strength (team : String) : ℚ :=
  (TEAM_STRENGTH.lookup team).getD 70

/-! ### Rounding (Python round)

Python round(x, 1) rounds to the nearest tenth with ties to even; the
source applies it to IEEE doubles, which we model as exact rationals. -/

/-- Round to the nearest integer, ties to the even integer. -/
def pyRoundInt (q : ℚ) : ℤ :=
  let n := ⌊q⌋
  let f := q - n
  if f < 1/2 then n
  else if 1/2 < f then n + 1
  else if n % 2 = 0 then n else n + 1

/-- Python round(x, 1). -/
def round1 (q : ℚ) : ℚ := (pyRoundInt (q * 10) : ℚ) / 10

/-! ### Expected goals (src/app.py lines 204-214) -/

/-- src/app.py lines 204, 208, 213: home λ from own attacking average,
opponent conceding average, strength difference, +0.6 boost, clamped to
[1.2, 4.5]. -/
def homeExpGoals (own_gf opp_ga strength_diff : ℚ) : ℚ :=
  min (max ((own_gf + opp_ga * 0.9) / 2 + 0.02 * strength_diff + 0.6) 1.2) 4.5

/-- src/app.py lines 205, 209, 214: away λ, -0.01·strength_diff, +0.4
boost, clamped to [0.8, 3.5]. -/
def awayExpGoals (own_gf opp_ga strength_diff : ℚ) : ℚ :=
  min (max ((own_gf + opp_ga * 0.9) / 2 - 0.01 * strength_diff + 0.4) 0.8) 3.5

/-! ### Monte Carlo step (src/app.py lines 216-232) -/

/-- np.mean of a boolean condition over the sampled score pairs. -/
def meanQ (l : List (ℕ × ℕ)) (p : ℕ × ℕ → Bool) : ℚ :=
  (l.countP p : ℚ) / l.length

/-- src/app.py line 227: the most frequent sampled scoreline.  Python
iterates over a set, whose order (and hence the winner among tied counts)
is unspecified; we fix first occurrence in the sample list as the
deterministic tie-break.  No claim depends on this field. -/
def ft_score_of (l : List (ℕ × ℕ)) : ℕ × ℕ :=
  l.foldl (fun best s => if l.count s > l.count best then s else best) (l.headD (0, 0))

/-- src/app.py lines 190-198: base power of one team (strength prior,
recency-weighted form score, goal averages); the home side's power is then
multiplied by 1.1 (line 195). -/
def base_power (df : List MatchRow) (team : String) : ℚ :=
  strength team * 0.4 + weighted_score (get_last_n_matches df team 10) * 0.7
    + (avg_goals df team).1 * 0.6 - (avg_goals df team).2 * 0.4

/-- src/app.py lines 193-198: the pre-adjustment home win percentage.
The source also computes away_win and draw here (lines 199-200) but
overwrites both at lines 231-232 without using them. -/
def home_win0_of (df : List MatchRow) (home away : String) : ℚ :=
  let home_power := base_power df home * 1.1
  let away_power := base_power df away
  let total := home_power + away_power + 0.01
  round1 (home_power / total * 100)

/-- src/app.py lines 229-232: blend the power-ratio home win with the
Monte Carlo frequencies.  Returns (home_win, draw, away_win). -/
def probs_final (home_win0 : ℚ) (sims : List (ℕ × ℕ)) : ℚ × ℚ × ℚ :=
  let draw_adjust := meanQ sims (fun p => p.1 == p.2) * 100
  let home_win := round1 (home_win0 * (1 - draw_adjust / 100)
      + meanQ sims (fun p => decide (p.1 > p.2)) * draw_adjust)
  let away_win := round1 (100 - home_win - round1 draw_adjust)
  let draw := round1 draw_adjust
  (home_win, draw, away_win)

/-- The dictionary returned by predict_match (src/app.py lines 234-241).
The btts and over25 strings f"{round(p*100)}%" are modelled by their
numeric part. -/
structure Prediction where
  home_win : ℚ
  draw : ℚ
  away_win : ℚ
  home_form : List FormEntry
  away_form : List FormEntry
  btts : ℤ
  over25 : ℤ
  ft_score : ℕ × ℕ
  deriving DecidableEq

/-- src/app.py lines 162-241.  home_sims/away_sims are the two arrays of
np.random.poisson draws (length sims = 1000 in the source); the Poisson
rates they were drawn with are the home_exp/away_exp values bound below.
Note that predict_match performs no name resolution: home and away are
compared verbatim against the stored team names. -/
def predict_match (df : List MatchRow) (home_sims away_sims : List ℕ)
    (home away : String) : Prediction :=
  let strength_diff := strength home - strength away
  let _home_exp := homeExpGoals (avg_goals df home).1 (avg_goals df away).2 strength_diff
  let _away_exp := awayExpGoals (avg_goals df away).1 (avg_goals df home).2 strength_diff
  let sims := home_sims.zip away_sims
  let final := probs_final (home_win0_of df home away) sims
  { home_win := final.1, draw := final.2.1, away_win := final.2.2,
    home_form := (get_last_n_matches df home 10).take 4,
    away_form := (get_last_n_matches df away 10).take 4,
    btts := pyRoundInt (meanQ sims (fun p => decide (0 < p.1) && decide (0 < p.2)) * 100),
    over25 := pyRoundInt (meanQ sims (fun p => decide (2 < p.1 + p.2)) * 100),
    ft_score := ft_score_of sims }

/-! ### Upcoming fixtures and their ordering (src/app.py lines 104-127,
246-254) -/

/-- One row of df_upcoming after load_upcoming: home/away normalized at
load time, league label, parsed kickoff (none models NaT). -/
structure UpcomingRow where
  home : String
  away : String
  league : String
  datetime : Option (ℤ × ℤ)
  deriving DecidableEq

/-- src/app.py lines 22-32. -/
def LEAGUE_ORDER : List String := [
  "EPL",
  "Championship",
  "LaLiga",
  "SerieA",
  "Bundesliga",
  "Ligue1",
  "BelgianProLeague",
  "Eredivisie",
  "PrimeiraLiga"]

/-- Ascending datetime key with NaT last (pandas default na_position). -/
def keyA (o : Option (ℤ × ℤ)) : WithTop (ℤ ×ₗ ℤ) :=
  match o with
  | none => ⊤
  | some p => (toLex p : ℤ ×ₗ ℤ)

/-- Comparator for ascending datetime order with NaT last. -/
def ascLe (a b : UpcomingRow) : Bool :=
  decide (keyA a.datetime ≤ keyA b.datetime)

/-- src/app.py line 251: df_upcoming["datetime"].dt.date >= today.  For a
NaT datetime the comparison is False, so such rows are filtered out. -/
def dateGE (o : Option (ℤ × ℤ)) (today : ℤ) : Bool :=
  match o with
  | none => false
  | some p => decide (today ≤ p.1)

/-- src/app.py lines 246-254: for each league of LEAGUE_ORDER (and only
those), keep the upcoming fixtures of that league dated today or later,
sort ascending by datetime, truncate to 4.  The Python dict `grouped` is
insertion-ordered by LEAGUE_ORDER, modelled as an association list. -/
def order_upcoming (df : List UpcomingRow) (today : ℤ) : List (String × List UpcomingRow) :=
  LEAGUE_ORDER.map (fun league =>
    (league,
      (((df.filter (fun r => r.league == league && dateGE r.datetime today)).mergeSort
        ascLe).take 4)))

/-- Modelled from the spec: spec.md §4.3 describes an operation
average_goals(team) computed over the FULL available history of the team
(not just the last-N window), with per-game goals-for/against oriented
from the team's perspective and a (1.0, 1.0) default when the team has no
matches.  No such full-history function exists in src/ (avg_goals uses
the last-10 window); this definition follows the spec's words and is used
only to compare against the source's avg_goals. -/
def average_goals_spec (df : List MatchRow) (team : String) : ℚ × ℚ :=
  let ms := df.filter (fun r => r.home == team || r.away == team)
  let gf := (ms.map (fun r => if r.home = team then (r.home_goals : ℚ) else (r.away_goals : ℚ))).sum
  let ga := (ms.map (fun r => if r.home = team then (r.away_goals : ℚ) else (r.home_goals : ℚ))).sum
  (if 0 < ms.length then gf / ms.length else 1.0, if 0 < ms.length then ga / ms.length else 1.0)

/-! ### Rounding lemmas -/

theorem round1_eq_div (q : ℚ) : round1 q = ((pyRoundInt (q * 10) : ℤ) : ℚ) / 10 := rfl

theorem round1_int_div_ten (z : ℤ) : round1 ((z : ℚ) / 10) = (z : ℚ) / 10 := by
  unfold round1 pyRoundInt
  rw [show ((z : ℚ) / 10 * 10) = (z : ℚ) by ring]
  norm_num

theorem round1_zero : round1 0 = 0 := by
  have h := round1_int_div_ten 0
  simpa using h

theorem round1_hundred : round1 100 = 100 := by
  have h := round1_int_div_ten 1000
  norm_num at h
  exact h

/-- What round1 produces is a multiple of one tenth, and such values are
fixed by round1; in particular the final away_win expression of
probs_final collapses. -/
theorem round1_fix (x d : ℚ) :
    round1 (100 - round1 x - round1 d) = 100 - round1 x - round1 d := by
  have h : (100 : ℚ) - round1 x - round1 d
      = ((1000 - pyRoundInt (x * 10) - pyRoundInt (d * 10) : ℤ) : ℚ) / 10 := by
    rw [round1_eq_div, round1_eq_div]
    push_cast
    ring
  rw [h, round1_int_div_ten]

theorem round1_fix_one (x : ℚ) : round1 (100 - round1 x) = 100 - round1 x := by
  have h := round1_fix x 0
  rw [round1_zero] at h
  simpa using h

/-! ### The three reported probabilities always sum to exactly 100 -/

theorem probs_final_sum (x : ℚ) (sims : List (ℕ × ℕ)) :
    (probs_final x sims).1 + (probs_final x sims).2.1 + (probs_final x sims).2.2 = 100 := by
  show round1 _ + round1 _ + round1 (100 - round1 _ - round1 _) = 100
  rw [round1_fix]
  ring

/-- C1: the Prediction returned by predict_match has home-win, draw and
away-win probabilities summing to exactly 100 (hence within 0.1 of 100
after rounding) — this part of the claim holds for every dataset, every
pair of names and every Monte Carlo draw.  The claim's other part, that
each probability lies in [0,100], is false: see
prediction_prob_out_of_range_ce. -/
theorem prediction_sum_exact (df : List MatchRow) (hs ta : List ℕ) (home away : String) :
    (predict_match df hs ta home away).home_win + (predict_match df hs ta home away).draw
      + (predict_match df hs ta home away).away_win = 100 := by
  have e1 : (predict_match df hs ta home away).home_win
      = (probs_final (home_win0_of df home away) (hs.zip ta)).1 := rfl
  have e2 : (predict_match df hs ta home away).draw
      = (probs_final (home_win0_of df home away) (hs.zip ta)).2.1 := rfl
  have e3 : (predict_match df hs ta home away).away_win
      = (probs_final (home_win0_of df home away) (hs.zip ta)).2.2 := rfl
  rw [e1, e2, e3]
  exact probs_final_sum _ _

/-! ### Concrete Monte Carlo draws used by the counterexamples -/

/-- A possible output of np.random.poisson(λ, 1000): one goal in every
simulation. -/
def sim_ones : List ℕ := List.replicate 1000 1

/-- A possible output of np.random.poisson(λ, 1000): zero goals in every
simulation. -/
def sim_zeros : List ℕ := List.replicate 1000 0

theorem zip_ones_zeros : sim_ones.zip sim_zeros = List.replicate 1000 (1, 0) := by
  rw [sim_ones, sim_zeros, List.zip_replicate]
  norm_num

theorem zip_ones_ones : sim_ones.zip sim_ones = List.replicate 1000 (1, 1) := by
  rw [sim_ones, List.zip_replicate]
  norm_num

theorem meanQ_replicate (p : ℕ × ℕ → Bool) (x : ℕ × ℕ) :
    meanQ (List.replicate 1000 x) p = if p x then 1 else 0 := by
  rw [meanQ, List.countP_replicate, List.length_replicate]
  cases h : p x <;> simp [h]

/-- With no ties among the sampled score pairs, the Monte Carlo adjustment
keeps the power-ratio home win and reports a zero draw. -/
theorem probs_final_rep10 (x : ℚ) :
    probs_final x (List.replicate 1000 (1, 0)) = (round1 x, 0, 100 - round1 x) := by
  have hd : meanQ (List.replicate 1000 ((1 : ℕ), (0 : ℕ))) (fun p => p.1 == p.2) = 0 := by
    rw [meanQ_replicate]; norm_num
  have hg : meanQ (List.replicate 1000 ((1 : ℕ), (0 : ℕ)))
      (fun p => decide (p.1 > p.2)) = 1 := by
    rw [meanQ_replicate]; norm_num
  show (round1 _, round1 _, round1 _) = _
  rw [hd, hg]
  norm_num [round1_zero, round1_fix_one]

/-- With every sampled score pair a tie, the draw probability is 100 and
both win probabilities collapse to 0. -/
theorem probs_final_rep11 (x : ℚ) :
    probs_final x (List.replicate 1000 (1, 1)) = (0, 100, 0) := by
  have hd : meanQ (List.replicate 1000 ((1 : ℕ), (1 : ℕ))) (fun p => p.1 == p.2) = 1 := by
    rw [meanQ_replicate]; norm_num
  have hg : meanQ (List.replicate 1000 ((1 : ℕ), (1 : ℕ)))
      (fun p => decide (p.1 > p.2)) = 0 := by
    rw [meanQ_replicate]; norm_num
  show (round1 _, round1 _, round1 _) = _
  rw [hd, hg]
  norm_num [round1_zero, round1_hundred]

/-- A post-load master dataset with a single extreme match: team B lost
0-100 at home to team C. -/
def dfKO : List MatchRow := [⟨"B", "C", 0, 100, some (0, 0)⟩]

theorem dfKO_form_A : get_last_n_matches dfKO "A" 10 = [] := by
  simp [dfKO, get_last_n_matches]

theorem dfKO_form_B :
    get_last_n_matches dfKO "B" 10 = [⟨some (0, 0), "B", "C", 0, 100, "L"⟩] := by
  simp [dfKO, get_last_n_matches, to_form_entry]

theorem dfKO_avg_A : avg_goals dfKO "A" = (1, 1) := by
  simp only [avg_goals, dfKO_form_A]
  norm_num

theorem dfKO_avg_B : avg_goals dfKO "B" = (0, 100) := by
  simp only [avg_goals, dfKO_form_B]
  norm_num

theorem dfKO_hw0 : home_win0_of dfKO "A" "B" = 163 := by
  have sA : strength "A" = 70 := by simp [strength, TEAM_STRENGTH, List.lookup]
  have sB : strength "B" = 70 := by simp [strength, TEAM_STRENGTH, List.lookup]
  have wA : weighted_score (get_last_n_matches dfKO "A" 10) = 0 := by
    rw [dfKO_form_A]; simp [weighted_score]
  have wB : weighted_score (get_last_n_matches dfKO "B" 10) = 0 := by
    rw [dfKO_form_B]; simp [weighted_score, form_weights, score_map]
  rw [home_win0_of, base_power, base_power, sA, sB, wA, wB, dfKO_avg_A, dfKO_avg_B]
  norm_num [round1, pyRoundInt]

/-- C1 counterexample: with the dataset dfKO (team B conceded 100 goals in
its one match) and Monte Carlo draws that are all 1-0, predict_match
reports home_win = 163% and away_win = -63%: the probabilities are NOT
always inside [0,100], refuting that part of the claim (their sum is
still exactly 100, see prediction_sum_exact). -/
theorem prediction_prob_out_of_range_ce :
    (predict_match dfKO sim_ones sim_zeros "A" "B").away_win < 0
    ∧ 100 < (predict_match dfKO sim_ones sim_zeros "A" "B").home_win := by
  have r163 : round1 163 = 163 := by
    have h := round1_int_div_ten 1630
    norm_num at h
    exact h
  have e1 : (predict_match dfKO sim_ones sim_zeros "A" "B").away_win
      = (probs_final (home_win0_of dfKO "A" "B") (sim_ones.zip sim_zeros)).2.2 := rfl
  have e2 : (predict_match dfKO sim_ones sim_zeros "A" "B").home_win
      = (probs_final (home_win0_of dfKO "A" "B") (sim_ones.zip sim_zeros)).1 := rfl
  rw [e1, e2, zip_ones_zeros, dfKO_hw0, probs_final_rep10, r163]
  norm_num

/-- C2: what the code actually computes (amended claim).  The reported
draw probability is the rounded percentage of tied score pairs among the
Monte Carlo samples — an empirical frequency, not the bounded-Poisson
closed form — and the reported away win is forced to the exact complement
100 - home_win - draw. -/
theorem probs_are_monte_carlo (df : List MatchRow) (hs ta : List ℕ) (home away : String) :
    (predict_match df hs ta home away).draw
      = round1 (meanQ (hs.zip ta) (fun p => p.1 == p.2) * 100)
    ∧ (predict_match df hs ta home away).away_win
      = 100 - (predict_match df hs ta home away).home_win
        - (predict_match df hs ta home away).draw := by
  constructor
  · rfl
  · show round1 (100 - round1 _ - round1 _) = _
    rw [round1_fix]
    rfl

/-- C2 counterexample: two runs on identical team inputs (identical λ
inputs) but different Monte Carlo draws give draw = 0% and draw = 100%.
Under the claim, both values would equal the one bounded-Poisson
closed-form draw probability determined by the team inputs alone, which
is impossible; the probabilities are therefore not computed by the
closed-form matrix. -/
theorem draw_depends_on_rng_ce :
    (predict_match [] sim_ones sim_zeros "A" "B").draw
      ≠ (predict_match [] sim_ones sim_ones "A" "B").draw := by
  have e1 : (predict_match [] sim_ones sim_zeros "A" "B").draw
      = (probs_final (home_win0_of [] "A" "B") (sim_ones.zip sim_zeros)).2.1 := rfl
  have e2 : (predict_match [] sim_ones sim_ones "A" "B").draw
      = (probs_final (home_win0_of [] "A" "B") (sim_ones.zip sim_ones)).2.1 := rfl
  rw [e1, e2, zip_ones_zeros, zip_ones_ones, probs_final_rep10, probs_final_rep11]
  norm_num

/-- C3: the amended claim.  Name resolution happens once, at dataset load
time: load_master maps normalize_team over the home and away columns
(src/app.py lines 98-99).  predict_match itself performs no resolution,
so a raw alias given to predict_match is matched verbatim against the
stored canonical names (see predict_no_resolution_ce). -/
theorem names_resolved_at_load (rows : List MatchRow) :
    (load_master_names rows).map MatchRow.home
      = rows.map (fun r => App.normalize_team r.home)
    ∧ (load_master_names rows).map MatchRow.away
      = rows.map (fun r => App.normalize_team r.away) := by
  constructor <;> (rw [load_master_names, List.map_map]; rfl)

/-- A post-load master dataset with one Manchester City home win. -/
def dfMC : List MatchRow := [⟨"Manchester City", "C", 2, 0, some (0, 0)⟩]

theorem dfMC_form_alias : get_last_n_matches dfMC "Man City" 10 = [] := by
  simp [dfMC, get_last_n_matches]

theorem dfMC_form_canonical :
    get_last_n_matches dfMC "Manchester City" 10
      = [⟨some (0, 0), "Manchester City", "C", 2, 0, "W"⟩] := by
  simp [dfMC, get_last_n_matches, to_form_entry]

/-- C3 counterexample: predict_match does not resolve raw names.  With the
canonical spelling "Manchester City" stored in the repository, the known
alias "Man City" (normalize_team maps it to "Manchester City") finds no
match history, while the canonical name finds it — the two predictions
differ, so a raw alias does not yield its canonical identity's
prediction. -/
theorem predict_no_resolution_ce :
    App.normalize_team "Man City" = "Manchester City"
    ∧ predict_match dfMC sim_ones sim_zeros "Man City" "D"
      ≠ predict_match dfMC sim_ones sim_zeros "Manchester City" "D" := by
  constructor
  · decide
  · intro h
    have h2 := congrArg Prediction.home_form h
    have e1 : (predict_match dfMC sim_ones sim_zeros "Man City" "D").home_form
        = (get_last_n_matches dfMC "Man City" 10).take 4 := rfl
    have e2 : (predict_match dfMC sim_ones sim_zeros "Manchester City" "D").home_form
        = (get_last_n_matches dfMC "Manchester City" 10).take 4 := rfl
    rw [e1, e2, dfMC_form_alias, dfMC_form_canonical] at h2
    simp at h2

/-- C4: the amended claim.  An empty (or missing) home name is NOT a
reportable error: predict_match silently defaults, treating the absent
identity as an unknown team — empty match history, neutral (1.0, 1.0)
goal averages — and still returns a normal Prediction. -/
theorem empty_name_silently_defaulted (df : List MatchRow) (hs ta : List ℕ) (away : String)
    (hdf : ∀ r ∈ df, r.home ≠ "" ∧ r.away ≠ "") :
    get_last_n_matches df "" 10 = []
    ∧ (predict_match df hs ta "" away).home_form = []
    ∧ avg_goals df "" = (1, 1) := by
  have hfil : df.filter (fun r => r.home == "" || r.away == "") = [] := by
    rw [List.filter_eq_nil_iff]
    intro r hr
    have := hdf r hr
    simp [this.1, this.2]
  have hg : get_last_n_matches df "" 10 = [] := by
    rw [get_last_n_matches, hfil]
    simp
  refine ⟨hg, ?_, ?_⟩
  · show (get_last_n_matches df "" 10).take 4 = []
    rw [hg]
    rfl
  · simp only [avg_goals, hg]
    norm_num

/-- C4 witness: the silent-defaulting theorem applied to the concrete
dataset dfKO (whose team names are non-empty). -/
theorem empty_name_silently_defaulted_witness :
    get_last_n_matches dfKO "" 10 = []
    ∧ (predict_match dfKO sim_ones sim_zeros "" "B").home_form = []
    ∧ avg_goals dfKO "" = (1, 1) :=
  empty_name_silently_defaulted dfKO sim_ones sim_zeros "B"
    (by intro r hr; simp [dfKO] at hr; rw [hr]; constructor <;> simp)

theorem get_last_nil (team : String) (n : ℕ) : get_last_n_matches [] team n = [] := by
  simp [get_last_n_matches]

theorem weighted_score_nil : weighted_score [] = 0 := by
  simp [weighted_score]

theorem avg_goals_nil (team : String) : avg_goals [] team = (1, 1) := by
  simp only [avg_goals, get_last_nil]
  norm_num

/-- C4 counterexample: called with an empty home name, predict_match does
not fail or signal anything — it returns an ordinary Prediction (52.4% /
0% / 47.6% with these Monte Carlo draws), exactly as for any unknown team:
the claim that predict does not return a normal Prediction for an absent
identity is false. -/
theorem empty_name_normal_prediction_ce :
    (predict_match [] sim_ones sim_zeros "" "B").home_form = []
    ∧ (predict_match [] sim_ones sim_zeros "" "B").home_win = 52.4
    ∧ (predict_match [] sim_ones sim_zeros "" "B").draw = 0
    ∧ (predict_match [] sim_ones sim_zeros "" "B").away_win = 47.6 := by
  have sE : strength "" = 70 := by simp [strength, TEAM_STRENGTH, List.lookup]
  have sB : strength "B" = 70 := by simp [strength, TEAM_STRENGTH, List.lookup]
  have hw0 : home_win0_of [] "" "B" = 52.4 := by
    rw [home_win0_of, base_power, base_power, sE, sB, get_last_nil, get_last_nil,
      weighted_score_nil, avg_goals_nil, avg_goals_nil]
    norm_num [round1, pyRoundInt]
  have r524 : round1 52.4 = 52.4 := by
    have h := round1_int_div_ten 524
    norm_num at h ⊢
    exact h
  have e0 : (predict_match [] sim_ones sim_zeros "" "B").home_form
      = (get_last_n_matches [] "" 10).take 4 := rfl
  have e1 : (predict_match [] sim_ones sim_zeros "" "B").home_win
      = (probs_final (home_win0_of [] "" "B") (sim_ones.zip sim_zeros)).1 := rfl
  have e2 : (predict_match [] sim_ones sim_zeros "" "B").draw
      = (probs_final (home_win0_of [] "" "B") (sim_ones.zip sim_zeros)).2.1 := rfl
  have e3 : (predict_match [] sim_ones sim_zeros "" "B").away_win
      = (probs_final (home_win0_of [] "" "B") (sim_ones.zip sim_zeros)).2.2 := rfl
  rw [e0, e1, e2, e3, get_last_nil, zip_ones_zeros, hw0, probs_final_rep10, r524]
  norm_num

theorem avg_fold_eq (team : String) :
    ∀ (l : List FormEntry) (a b : ℚ),
      l.foldl (fun acc m =>
        (acc.1 + (if m.home = team then (m.gf : ℚ) else (m.ga : ℚ)),
         acc.2 + (if m.home = team then (m.ga : ℚ) else (m.gf : ℚ)))) (a, b)
      = (a + (l.map (fun m => if m.home = team then (m.gf : ℚ) else (m.ga : ℚ))).sum,
         b + (l.map (fun m => if m.home = team then (m.ga : ℚ) else (m.gf : ℚ))).sum) := by
  intro l
  induction l with
  | nil => intro a b; simp
  | cons x t ih =>
    intro a b
    simp only [List.foldl_cons, List.map_cons, List.sum_cons]
    rw [ih]
    simp only [Prod.mk.injEq]
    constructor <;> ring

/-- C5: the amended claim.  avg_goals averages over only the last-10
window returned by get_last_n_matches (not the full history), and because
the loop re-splits the already team-oriented score string, matches the
team played away contribute their goals-for and goals-against SWAPPED;
a team with no matches gets the neutral (1.0, 1.0) default. -/
theorem avg_goals_window_swapped (df : List MatchRow) (team : String) :
    avg_goals df team
      = (if (get_last_n_matches df team 10).length = 0 then 1 else
          ((get_last_n_matches df team 10).map
            (fun m => if m.home = team then (m.gf : ℚ) else (m.ga : ℚ))).sum
            / (get_last_n_matches df team 10).length,
         if (get_last_n_matches df team 10).length = 0 then 1 else
          ((get_last_n_matches df team 10).map
            (fun m => if m.home = team then (m.ga : ℚ) else (m.gf : ℚ))).sum
            / (get_last_n_matches df team 10).length) := by
  simp only [avg_goals]
  rw [avg_fold_eq]
  by_cases h : (get_last_n_matches df team 10).length = 0
  · simp only [h]
    norm_num
  · simp [h, Nat.pos_of_ne_zero h]

/-- A post-load master dataset with one match: team A lost 0-5 away at
team B.  Team A's true per-game averages are 0 for and 5 against. -/
def dfSwap : List MatchRow := [⟨"B", "A", 5, 0, some (0, 0)⟩]

theorem dfSwap_form :
    get_last_n_matches dfSwap "A" 10 = [⟨some (0, 0), "B", "A", 0, 5, "L"⟩] := by
  simp [dfSwap, get_last_n_matches, to_form_entry]

/-- C5 counterexample: for team A in dfSwap the full-history averages (the
claim, modelled by average_goals_spec) are (0, 5), but avg_goals returns
(5, 0) — the away match's goals are swapped — so avg_goals is not the
full-history per-game average. -/
theorem avg_goals_not_full_history_ce :
    avg_goals dfSwap "A" = (5, 0)
    ∧ average_goals_spec dfSwap "A" = (0, 5)
    ∧ avg_goals dfSwap "A" ≠ average_goals_spec dfSwap "A" := by
  have hBA : ("B" : String) ≠ "A" := by decide
  have h1 : avg_goals dfSwap "A" = (5, 0) := by
    simp only [avg_goals, dfSwap_form]
    norm_num [hBA]
  have h2 : average_goals_spec dfSwap "A" = (0, 5) := by
    simp only [average_goals_spec, dfSwap]
    norm_num [hBA]
  refine ⟨h1, h2, ?_⟩
  rw [h1, h2]
  intro h
  have := congrArg Prod.fst h
  norm_num at this

/-- C6 counterexample: the alias lookup is case-sensitive and there is no
title-casing fallback.  "man city" is a case variant of the known alias
"Man City", yet the two resolve to different identities; and the unknown
"chelsea fc" comes back verbatim, not title-cased ("Chelsea Fc"). -/
theorem resolver_not_normalized_ce :
    App.normalize_team "man city" = "man city"
    ∧ App.normalize_team "Man City" = "Manchester City"
    ∧ App.normalize_team "man city" ≠ App.normalize_team "Man City"
    ∧ App.normalize_team "chelsea fc" ≠ "Chelsea Fc" := by
  refine ⟨?_, ?_, ?_, ?_⟩ <;> decide

/-- C6: the amended claim.  normalize_team consults the alias table with
the exact trimmed string — no lowercasing, no accent stripping — and when
that exact key is absent it returns the trimmed original unchanged, with
no title-casing.  (Both src/app.py and src/cleaner.py behave this way.) -/
theorem resolver_exact_match (s : String) :
    (App.TEAM_ALIASES.lookup (pyStrip s) = none → App.normalize_team s = pyStrip s)
    ∧ (∀ v, App.TEAM_ALIASES.lookup (pyStrip s) = some v → App.normalize_team s = v)
    ∧ (Cleaner.TEAM_ALIASES.lookup (pyStrip s) = none →
        Cleaner.normalize_team s = pyStrip s)
    ∧ (∀ v, Cleaner.TEAM_ALIASES.lookup (pyStrip s) = some v →
        Cleaner.normalize_team s = v) := by
  refine ⟨?_, ?_, ?_, ?_⟩
  · intro h
    rw [App.app_normalize_team_eq, lookup_or_self, h]
    rfl
  · intro v h
    rw [App.app_normalize_team_eq, lookup_or_self, h]
    rfl
  · intro h
    rw [Cleaner.cleaner_normalize_team_eq, lookup_or_self, h]
    rfl
  · intro v h
    rw [Cleaner.cleaner_normalize_team_eq, lookup_or_self, h]
    rfl

/-- C6 witness: the exact-match characterization applied at a miss
("man city", returned trimmed and unchanged) and at a hit ("Man City"). -/
theorem resolver_exact_match_witness :
    App.normalize_team "man city" = pyStrip "man city"
    ∧ App.normalize_team "Man City" = "Manchester City" :=
  ⟨(resolver_exact_match "man city").1 (by decide),
   (resolver_exact_match "Man City").2.1 "Manchester City" (by decide)⟩

/-- C7: holding everything else fixed, the λ of a side is monotonically
non-decreasing in that side's own attacking (goals-for) average — for the
home side via homeExpGoals and for the away side via awayExpGoals (the
clamped expected-goal formulas of src/app.py lines 204-214). -/
theorem lambda_monotone_in_attack (gf1 gf2 opp_ga sd : ℚ) (h : gf1 ≤ gf2) :
    homeExpGoals gf1 opp_ga sd ≤ homeExpGoals gf2 opp_ga sd
    ∧ awayExpGoals gf1 opp_ga sd ≤ awayExpGoals gf2 opp_ga sd := by
  unfold homeExpGoals awayExpGoals
  constructor <;>
    exact min_le_min (max_le_max (by linarith) le_rfl) le_rfl

/-- C7 witness: monotonicity applied at attacking averages 1 ≤ 2. -/
theorem lambda_monotone_in_attack_witness :
    homeExpGoals 1 1 0 ≤ homeExpGoals 2 1 0
    ∧ awayExpGoals 1 1 0 ≤ awayExpGoals 2 1 0 :=
  lambda_monotone_in_attack 1 2 1 0 (by norm_num)

theorem descLe_trans : ∀ a b c : MatchRow,
    descLe a b = true → descLe b c = true → descLe a c = true := by
  intro a b c hab hbc
  simp only [descLe, decide_eq_true_eq] at hab hbc ⊢
  exact le_trans hbc hab

theorem descLe_total : ∀ a b : MatchRow, (descLe a b || descLe b a) = true := by
  intro a b
  simp only [descLe, Bool.or_eq_true, decide_eq_true_eq]
  exact le_total _ _

/-- C8: the amended claim.  get_last_n_matches returns at most n entries,
ordered non-increasingly by the kickoff key in which an unparseable
timestamp (NaT) counts as bottom: parseable timestamps come most recent
first and every NaT record is placed AFTER all parseable ones.  NaT
records are therefore not excluded (see nat_row_included_ce); ties and
the relative order of NaT rows are resolved deterministically by the
sort. -/
theorem recent_form_length_sorted (df : List MatchRow) (team : String) (n : ℕ) :
    (get_last_n_matches df team n).length ≤ n
    ∧ List.Pairwise (fun e f => keyD f.date ≤ keyD e.date)
        (get_last_n_matches df team n) := by
  constructor
  · rw [get_last_n_matches, List.length_map]
    exact List.length_take_le _ _
  · rw [get_last_n_matches, List.pairwise_map]
    have hs := @List.sorted_mergeSort MatchRow descLe descLe_trans descLe_total
      (df.filter (fun r => r.home == team || r.away == team))
    have ht := List.Pairwise.sublist (List.take_sublist n _) hs
    refine ht.imp ?_
    intro a b hab
    simp only [descLe, decide_eq_true_eq] at hab
    exact hab

/-- C8 counterexample: a record with an unparseable timestamp is NOT
excluded from the recency-ordered sequence — for a dataset whose only
match has datetime NaT, get_last_n_matches still returns that match (at
the end of the order, per pandas na_position last). -/
theorem nat_row_included_ce :
    get_last_n_matches [⟨"A", "B", 1, 1, none⟩] "A" 10
      = [⟨none, "A", "B", 1, 1, "D"⟩] := by
  simp [get_last_n_matches, to_form_entry]

theorem ascLe_trans : ∀ a b c : UpcomingRow,
    ascLe a b = true → ascLe b c = true → ascLe a c = true := by
  intro a b c hab hbc
  simp only [ascLe, decide_eq_true_eq] at hab hbc ⊢
  exact le_trans hab hbc

theorem ascLe_total : ∀ a b : UpcomingRow, (ascLe a b || ascLe b a) = true := by
  intro a b
  simp only [ascLe, Bool.or_eq_true, decide_eq_true_eq]
  exact le_total _ _

/-- C9: the amended claim.  order_upcoming produces one group per league
of LEAGUE_ORDER, in exactly that order; each group holds at most 4
fixtures, all of that league, all dated today or later (a date-level
filter: a fixture from earlier today is kept), sorted ascending by
kickoff; and a fixture whose league is NOT in LEAGUE_ORDER is dropped —
it appears in no group at all (rather than being placed after the listed
leagues). -/
theorem order_upcoming_spec (df : List UpcomingRow) (today : ℤ) :
    (order_upcoming df today).map Prod.fst = LEAGUE_ORDER
    ∧ (∀ g ∈ order_upcoming df today,
        g.2.length ≤ 4
        ∧ List.Pairwise (fun r s => keyA r.datetime ≤ keyA s.datetime) g.2
        ∧ ∀ r ∈ g.2, r.league = g.1 ∧ dateGE r.datetime today = true)
    ∧ (∀ r ∈ df, r.league ∉ LEAGUE_ORDER →
        ∀ g ∈ order_upcoming df today, r ∉ g.2) := by
  refine ⟨?_, ?_, ?_⟩
  · rw [order_upcoming, List.map_map]
    exact List.map_id _
  · intro g hg
    rw [order_upcoming] at hg
    obtain ⟨l, hl, rfl⟩ := List.mem_map.mp hg
    refine ⟨List.length_take_le _ _, ?_, ?_⟩
    · have hs := @List.sorted_mergeSort UpcomingRow ascLe ascLe_trans ascLe_total
        (df.filter (fun r => r.league == l && dateGE r.datetime today))
      have ht := List.Pairwise.sublist (List.take_sublist 4 _) hs
      refine ht.imp ?_
      intro a b hab
      simp only [ascLe, decide_eq_true_eq] at hab
      exact hab
    · intro r hr
      have hr2 : r ∈ (df.filter
          (fun r => r.league == l && dateGE r.datetime today)).mergeSort ascLe :=
        (List.take_sublist 4 _).subset hr
      have hr3 := List.mem_mergeSort.mp hr2
      have hr4 := List.mem_filter.mp hr3
      have hc := hr4.2
      rw [Bool.and_eq_true] at hc
      exact ⟨by simpa using hc.1, hc.2⟩
  · intro r hr hnot g hg hrg
    rw [order_upcoming] at hg
    obtain ⟨l, hl, rfl⟩ := List.mem_map.mp hg
    have hr2 : r ∈ (df.filter
        (fun r => r.league == l && dateGE r.datetime today)).mergeSort ascLe :=
      (List.take_sublist 4 _).subset hrg
    have hr4 := List.mem_filter.mp (List.mem_mergeSort.mp hr2)
    have hc := hr4.2
    rw [Bool.and_eq_true] at hc
    have hleq : r.league = l := by simpa using hc.1
    rw [← hleq] at hl
    exact hnot hl

/-- C9 counterexample: a fixture in a league absent from LEAGUE_ORDER
("MLS", kickoff well in the future) is dropped entirely — every group
produced by order_upcoming is empty, so the fixture is not placed after
the listed leagues as the claim requires. -/
theorem unlisted_league_dropped_ce :
    (order_upcoming [⟨"X", "Y", "MLS", some (100, 0)⟩] 0).map Prod.snd
      = List.replicate 9 ([] : List UpcomingRow) := by
  simp [order_upcoming, LEAGUE_ORDER, List.replicate]

/-- A one-fixture upcoming dataset in a listed league, used to witness
order_upcoming_spec. -/
def upW : List UpcomingRow := [⟨"X", "Y", "EPL", some (5, 0)⟩]

/-- C9 witness: order_upcoming_spec applied to the concrete dataset upW,
instantiated at the EPL group and its single fixture. -/
theorem order_upcoming_spec_witness :
    (⟨"X", "Y", "EPL", some (5, 0)⟩ : UpcomingRow).league = "EPL"
    ∧ dateGE (⟨"X", "Y", "EPL", some (5, 0)⟩ : UpcomingRow).datetime 0 = true := by
  have hmem : ("EPL", [(⟨"X", "Y", "EPL", some (5, 0)⟩ : UpcomingRow)])
      ∈ order_upcoming upW 0 := by
    simp [order_upcoming, LEAGUE_ORDER, upW, dateGE]
  exact ((order_upcoming_spec upW 0).2.1 _ hmem).2.2
    ⟨"X", "Y", "EPL", some (5, 0)⟩ (by simp)

/-- C10: resolution is idempotent for both normalize_team functions:
every canonical value in each alias table is whitespace-free and is not
itself a key of its table, so resolving an already-resolved name returns
it unchanged. -/
theorem resolver_idempotent (s : String) :
    App.normalize_team (App.normalize_team s) = App.normalize_team s
    ∧ Cleaner.normalize_team (Cleaner.normalize_team s) = Cleaner.normalize_team s := by
  constructor
  · simp only [App.app_normalize_team_eq]
    exact lookup_or_self_idem App.TEAM_ALIASES (by decide) s
  · simp only [Cleaner.cleaner_normalize_team_eq]
    exact lookup_or_self_idem Cleaner.TEAM_ALIASES (by decide) s
